import Mathlib

/-!
Shallow embedding of the agent-simulation core of the Edupet garden-pets
repository, together with proofs settling the frozen specification claims.

Numbers are modelled as real numbers (the source uses JavaScript floats).
Every call to the unseeded `Math.random()` in the source is modelled as an
injected draw from an explicit stream, as the spec's design notes prescribe.
Division is modelled by `jsDivOpt`, which returns `none` exactly when the
denominator is zero (the one case in which JavaScript produces a non-finite
result from finite operands).
-/

namespace GardenPets

noncomputable section

open Real

/-- `clamp` from `pets-core/utils.js`: `Math.max(a, Math.min(b, v))`. -/
def clamp (v a b : ℝ) : ℝ := max a (min b v)

/-- `lerp` from `pets-core/utils.js`. -/
def lerp (a b t : ℝ) : ℝ := a + (b - a) * t

/-- `randRange` from `pets-core/utils.js`, with the `Math.random()` draw `r`
injected: `lerp a b r`. -/
def randRange (a b r : ℝ) : ℝ := lerp a b r

/-- Real-valued floored remainder `x - y * ⌊x / y⌋` (always in `[0, y)` for
`y > 0`); helper used to state JavaScript remainder semantics and the
shortest-angular-distance notion. -/
def fmodF (x y : ℝ) : ℝ := x - y * (⌊x / y⌋ : ℤ)

/-- JavaScript `%` on numbers: truncated remainder, sign of the dividend.
For `x ≥ 0` it agrees with the floored remainder; for `x < 0` it is the
negated floored remainder of `-x`. -/
def jsFmod (x y : ℝ) : ℝ := if 0 ≤ x then fmodF x y else -(fmodF (-x) y)

/-- `dampAngle` from `pets-core/utils.js`:
`d = (b - a + Math.PI) % (Math.PI * 2) - Math.PI; return a + d * t`,
where `%` is the JavaScript truncated remainder. -/
def dampAngle (a b t : ℝ) : ℝ :=
  let d := jsFmod (b - a + π) (π * 2) - π
  a + d * t

/-- Shortest angular distance between two angles (a value in `[0, π]`):
the spec-side notion the yaw-convergence claim is stated about. -/
def angDist (a b : ℝ) : ℝ := |fmodF (b - a + π) (π * 2) - π|

/-- `smoothstep` from `pets-core/utils.js`. -/
def smoothstep (t : ℝ) : ℝ := t * t * (3 - 2 * t)

/-- `hash1` from `pets-core/utils.js`:
`x = Math.sin(n) * 43758.5453123; return x - Math.floor(x)`. -/
def hash1 (n : ℝ) : ℝ := Int.fract (Real.sin n * 43758.5453123)

/-- `noise1D` from `pets-core/utils.js`. -/
def noise1D (x seed : ℝ) : ℝ :=
  let i0 : ℝ := (⌊x⌋ : ℤ)
  let i1 : ℝ := i0 + 1
  let t := smoothstep (x - i0)
  let a := hash1 (i0 * 127.1 + seed * 311.7)
  let b := hash1 (i1 * 127.1 + seed * 311.7)
  lerp a b t * 2 - 1

/-- JavaScript `Math.atan2(y, x)`. -/
def jsAtan2 (y x : ℝ) : ℝ :=
  if 0 < x then Real.arctan (y / x)
  else if x < 0 then
    (if 0 ≤ y then Real.arctan (y / x) + π else Real.arctan (y / x) - π)
  else
    (if 0 < y then π / 2 else if y < 0 then -(π / 2) else 0)

/-- Checked division: `some (x / y)` unless `y = 0`, in which case the
JavaScript evaluation would produce `Infinity` or `NaN` and we return
`none`. -/
def jsDivOpt (x y : ℝ) : Option ℝ := if y = 0 then none else some (x / y)

/-- `pick(arr)` from `pets-core/utils.js`, with the draw `r` injected:
`arr[Math.floor(r * arr.length)]`. -/
def pickIdx (len : ℕ) (r : ℝ) : ℕ := (⌊r * (len : ℝ)⌋).toNat

/-- `pick` specialised to a list of agent ids. -/
def pickId (pets : List ℕ) (r : ℝ) : ℕ := pets.getD (pickIdx pets.length r) 0

/-- `pick` specialised to a list of rest-spot coordinates. -/
def pickSpot (spots : List (ℝ × ℝ)) (r : ℝ) : ℝ × ℝ :=
  spots.getD (pickIdx spots.length r) (0, 0)

/-! ## Agent brain (src/unnamed/part_002, `pets-core/ai/brain.js`) -/

/-- The nine behaviour modes of `BrainState.mode`. -/
inductive Mode where
  | wandering | socializing | resting | curious | held
  | chasing | running | sleeping | following
  deriving DecidableEq, Repr

/-- `PERSONALITY` configuration from `pets-core/ai/brain.js`. -/
def curiosityChancePerS : ℝ := 0.11
/-- `PERSONALITY.restChancePerS`. -/
def restChancePerS : ℝ := 0.10
/-- `PERSONALITY.restAfterWalkS`. -/
def restAfterWalkS : ℝ := 10
/-- `PERSONALITY.chaseChancePerS`. -/
def chaseChancePerS : ℝ := 0.04
/-- `PERSONALITY.sleepAfterNoInteractS`. -/
def sleepAfterNoInteractS : ℝ := 22

/-- `BrainState` from `pets-core/ai/brain.js` (`restSpot` keeps its ground
plane coordinates `(x, z)`; the constant `y` component is cosmetic). -/
structure BrainState where
  mode : Mode
  t : ℝ
  seed : ℝ
  walkS : ℝ
  restSpot : ℝ × ℝ
  lastInteractAt : ℝ

/-- `ChaseMode` record from `pets-core/ai/social.js` (also the shape of
`chaseModeRef.current` in `GardenPets.jsx`). -/
structure ChaseMode where
  active : Bool
  untilT : ℝ
  chaserId : Option ℕ
  runnerId : Option ℕ
  chaserPos : ℝ × ℝ
  runnerPos : ℝ × ℝ

/-- `createChaseMode()` from `pets-core/ai/social.js`. -/
def createChaseMode : ChaseMode :=
  { active := false, untilT := 0, chaserId := none, runnerId := none
    chaserPos := (0, 0), runnerPos := (0, 0) }

/-- The `Math.random()` draws a single `updateBrain` call may consume,
injected explicitly (spec §9 prescribes an injected random source). -/
structure BrainRand where
  sleepRoll : ℝ
  sleepDur : ℝ
  sleepSpot : ℝ
  restRoll : ℝ
  restDur : ℝ
  restSpot : ℝ
  curiousRoll : ℝ
  curiousDur : ℝ

/-- The `params` argument of `updateBrain`.  `nowS` models
`performance.now() * 0.001`, which the source reads for the idle-sleep
check independently of `time`. -/
structure BrainParams where
  dt : ℝ
  time : ℝ
  isHeld : Bool
  socialActive : Bool
  playerDist2 : ℝ
  chase : Option ChaseMode
  petId : ℕ
  rugs : List (ℝ × ℝ)
  nowS : ℝ
  rand : BrainRand

/-- The idle-sleep check of `updateBrain` (lines 93–104 of
`pets-core/ai/brain.js`). -/
def sleepCheck (b1 : BrainState) (p : BrainParams) : BrainState :=
  if b1.mode ≠ Mode.sleeping ∧ p.playerDist2 ≤ 64 ∧
      p.nowS - b1.lastInteractAt > sleepAfterNoInteractS ∧
      p.rand.sleepRoll < 0.035 * p.dt then
    { b1 with mode := Mode.sleeping, t := randRange 3.0 6.0 p.rand.sleepDur
              restSpot := if 0 < p.rugs.length then pickSpot p.rugs p.rand.sleepSpot
                          else b1.restSpot }
  else b1

/-- The wandering-state transitions of `updateBrain` (lines 106–126):
walk-time accumulation, follow, probabilistic rest and curiosity. -/
def wanderStep (b2 : BrainState) (p : BrainParams) : BrainState :=
  if b2.mode = Mode.wandering then
    let bw := { b2 with walkS := b2.walkS + p.dt }
    if p.playerDist2 > 64 then { bw with mode := Mode.following }
    else if bw.walkS > restAfterWalkS ∧ p.rand.restRoll < restChancePerS * p.dt then
      { bw with mode := Mode.resting, t := randRange 2.6 4.8 p.rand.restDur
                walkS := 0
                restSpot := if 0 < p.rugs.length then pickSpot p.rugs p.rand.restSpot
                            else bw.restSpot }
    else if p.rand.curiousRoll < curiosityChancePerS * p.dt then
      { bw with mode := Mode.curious, t := randRange 1.2 2.2 p.rand.curiousDur }
    else bw
  else b2

/-- The following-to-wandering revert of `updateBrain` (lines 128–132). -/
def followRevert (b3 : BrainState) (p : BrainParams) : BrainState :=
  if b3.mode = Mode.following ∧ p.playerDist2 ≤ 64 then
    { b3 with mode := Mode.wandering, walkS := 0 }
  else b3

/-- The curious/resting/sleeping timer expiry of `updateBrain`
(lines 134–137). -/
def timerExpiry (b4 : BrainState) : BrainState :=
  if (b4.mode = Mode.curious ∨ b4.mode = Mode.resting ∨ b4.mode = Mode.sleeping) ∧
      b4.t ≤ 0 then
    { b4 with mode := Mode.wandering }
  else b4

/-- The tail of `updateBrain` after the held/chase gates: social gate,
then the idle-sleep check, wandering transitions, following revert and
timer expiry in the source's sequential-mutation order, applied to the
brain with its timer already decremented. -/
def updateBrainRest (b1 : BrainState) (p : BrainParams) : BrainState :=
  if p.socialActive then { b1 with mode := Mode.socializing }
  else timerExpiry (followRevert (wanderStep (sleepCheck b1 p) p) p)

/-- `updateBrain` from `pets-core/ai/brain.js`.  The timer is decremented
first; a held pet stays held; an active chase episode assigns
chasing/running (and returns even for uninvolved pets, exactly as the
source's early `return brain`); otherwise the social/sleep/wander/follow
chain of `updateBrainRest` runs. -/
def updateBrain (brain : BrainState) (p : BrainParams) : BrainState :=
  let b1 := { brain with t := brain.t - p.dt }
  if p.isHeld then { b1 with mode := Mode.held }
  else
    match p.chase with
    | some ch =>
      if ch.active then
        if ch.chaserId = some p.petId then
          { b1 with mode := Mode.chasing, t := ch.untilT - p.time }
        else if ch.runnerId = some p.petId then
          { b1 with mode := Mode.running, t := ch.untilT - p.time }
        else b1
      else updateBrainRest b1 p
    | none => updateBrainRest b1 p

/-! ## Movement (`calculateMovement` in `pets-core/ai/brain.js`) -/

/-- World bounds record `{minX, maxX, minZ, maxZ}`. -/
structure Bounds where
  minX : ℝ
  maxX : ℝ
  minZ : ℝ
  maxZ : ℝ

/-- The `params` argument of `calculateMovement`. -/
structure MoveParams where
  dt : ℝ
  time : ℝ
  bounds : Bounds
  playerPos : ℝ × ℝ
  chase : Option ChaseMode
  separationVec : Option (ℝ × ℝ)
  isMobile : Bool

/-- Seek a target at planar offset `(dx, dz)`: the shared
guard-then-normalize-then-accelerate step of the rest/follow/chase/run
branches.  Division is checked; the guard `d > eps` is the source's
epsilon check, and when it fails the branch's fallback (no steering, or
deceleration) is used instead.  A `none` result means a division actually
produced a non-finite value. -/
def seekStep (vx vz dx dz eps gain : ℝ) (fallback : ℝ × ℝ) : Option (ℝ × ℝ) :=
  let d := Real.sqrt (dx * dx + dz * dz)
  if d > eps then do
    let nx ← jsDivOpt dx d
    let nz ← jsDivOpt dz d
    some (vx + nx * gain, vz + nz * gain)
  else some fallback

/-- The wander-steering normalization (`if (l > 0.001) { dirX /= l; … }`),
with checked divisions; below the epsilon the direction is left
un-normalized, exactly as in the source. -/
def normalizeDir (dx dz : ℝ) : Option (ℝ × ℝ) :=
  if Real.sqrt (dx * dx + dz * dz) > 0.001 then do
    let nx ← jsDivOpt dx (Real.sqrt (dx * dx + dz * dz))
    let nz ← jsDivOpt dz (Real.sqrt (dx * dx + dz * dz))
    some (nx, nz)
  else some (dx, dz)

/-- `calculateMovement` from `pets-core/ai/brain.js`, with every division
checked by `jsDivOpt`.  Mirrors the mode branches of the source; `none`
would arise only from a division by zero. -/
def calculateMovement (brain : BrainState) (pos vel : ℝ × ℝ) (p : MoveParams) :
    Option (ℝ × ℝ) :=
  if brain.mode = Mode.socializing then
    some (vel.1 * (0.72 : ℝ) ^ (p.dt * 60), vel.2 * (0.72 : ℝ) ^ (p.dt * 60))
  else if brain.mode = Mode.curious then
    some (vel.1 * (0.70 : ℝ) ^ (p.dt * 60), vel.2 * (0.70 : ℝ) ^ (p.dt * 60))
  else if brain.mode = Mode.resting ∨ brain.mode = Mode.sleeping then
    seekStep vel.1 vel.2 (brain.restSpot.1 - pos.1) (brain.restSpot.2 - pos.2)
      0.20 (p.dt * 2.2)
      (vel.1 * (0.70 : ℝ) ^ (p.dt * 60), vel.2 * (0.70 : ℝ) ^ (p.dt * 60))
  else if brain.mode = Mode.following then
    (seekStep vel.1 vel.2 (p.playerPos.1 - pos.1) (p.playerPos.2 - pos.2)
        0.001 ((if p.isMobile then (1.55 : ℝ) else 1.75) * p.dt * 3.2) (vel.1, vel.2)).map
      fun w => (w.1 * (0.86 : ℝ) ^ (p.dt * 60), w.2 * (0.86 : ℝ) ^ (p.dt * 60))
  else if h : brain.mode = Mode.chasing ∧ p.chase.isSome then
    (seekStep vel.1 vel.2 ((p.chase.get h.2).runnerPos.1 - pos.1)
        ((p.chase.get h.2).runnerPos.2 - pos.2)
        0.001 (2.05 * p.dt * 3.0) (vel.1, vel.2)).map
      fun w => (w.1 * (0.86 : ℝ) ^ (p.dt * 60), w.2 * (0.86 : ℝ) ^ (p.dt * 60))
  else if h : brain.mode = Mode.running ∧ p.chase.isSome then
    (seekStep vel.1 vel.2 (pos.1 - (p.chase.get h.2).chaserPos.1)
        (pos.2 - (p.chase.get h.2).chaserPos.2)
        0.001 (2.1 * p.dt * 3.0) (vel.1, vel.2)).map
      fun w => (w.1 * (0.86 : ℝ) ^ (p.dt * 60), w.2 * (0.86 : ℝ) ^ (p.dt * 60))
  else
    -- Wandering: noise direction + wall avoidance + separation, normalized
    -- (wall margin 1.25, wander speed 1.25).
    (if pos.1 > p.bounds.maxX - 1.25 then
        jsDivOpt (pos.1 - (p.bounds.maxX - 1.25)) 1.25
      else some 0).bind fun wallXHi =>
    (if pos.1 < p.bounds.minX + 1.25 then
        jsDivOpt ((p.bounds.minX + 1.25) - pos.1) 1.25
      else some 0).bind fun wallXLo =>
    (if pos.2 > p.bounds.maxZ - 1.25 then
        jsDivOpt (pos.2 - (p.bounds.maxZ - 1.25)) 1.25
      else some 0).bind fun wallZHi =>
    (if pos.2 < p.bounds.minZ + 1.25 then
        jsDivOpt ((p.bounds.minZ + 1.25) - pos.2) 1.25
      else some 0).bind fun wallZLo =>
    (normalizeDir
        (noise1D (p.time * 0.55) brain.seed - wallXHi + wallXLo +
          (match p.separationVec with | some s => s.1 | none => 0))
        (noise1D (p.time * 0.55 + 100) brain.seed - wallZHi + wallZLo +
          (match p.separationVec with | some s => s.2 | none => 0))).bind fun dir =>
    some ((vel.1 + dir.1 * 1.25 * p.dt * 2.6) * (0.88 : ℝ) ^ (p.dt * 60),
          (vel.2 + dir.2 * 1.25 * p.dt * 2.6) * (0.88 : ℝ) ^ (p.dt * 60))

/-! ## Social module (src/unnamed/part_001, `pets-core/ai/social.js`) -/

/-- `SOCIAL_CONFIG.distance` (= the `SOCIAL_DISTANCE` constant of
`GardenPets.jsx`). -/
def socialDistance : ℝ := 2.0
/-- `SOCIAL_CONFIG.cooldownS` (= `SOCIAL_COOLDOWN_S`). -/
def socialCooldownS : ℝ := 10
/-- `SOCIAL_CONFIG.checkEveryFrames` (= `SOCIAL_CHECK_EVERY_FRAMES`). -/
def socialCheckEveryFrames : ℕ := 30

/-- `SocialState` from `pets-core/ai/social.js` (a pet's `social.current`).
Agent ids are modelled as naturals with the id order standing in for the
string order of the source. -/
structure Social where
  active : Bool
  untilT : ℝ
  partnerId : Option ℕ
  partnerPos : ℝ × ℝ
  facePartnerYaw : ℝ

/-- `createSocialState()` from `pets-core/ai/social.js`. -/
def createSocialState : Social :=
  { active := false, untilT := 0, partnerId := none, partnerPos := (0, 0)
    facePartnerYaw := 0 }

/-- `updateSocialState` from `pets-core/ai/social.js`: expires an active
interaction once `time > until`; the boolean reports whether it just
ended. -/
def updateSocialState (s : Social) (time : ℝ) : Social × Bool :=
  if s.active = true ∧ time > s.untilT then
    ({ s with active := false, partnerId := none }, true)
  else (s, false)

/-- `getPairKey` from `pets-core/ai/social.js`: the unordered pair key,
built by sorting the two ids. -/
def getPairKey (idA idB : ℕ) : ℕ × ℕ := if idA < idB then (idA, idB) else (idB, idA)

/-- `calculateSeparation` from `pets-core/ai/social.js`: repulsion from
every other pet within `radius`, with checked divisions. -/
def calculateSeparation (pos : ℝ × ℝ) (posMap : List (ℕ × (ℝ × ℝ))) (selfId : ℕ)
    (radius : ℝ := 2.2) : Option (ℝ × ℝ) :=
  posMap.foldlM
    (fun acc entry =>
      if entry.1 = selfId then some acc
      else
        let ox := pos.1 - entry.2.1
        let oz := pos.2 - entry.2.2
        let d2 := ox * ox + oz * oz
        if d2 < radius * radius ∧ d2 > 0.0001 then do
          let d := Real.sqrt d2
          let inv ← jsDivOpt 1 d
          let ratio ← jsDivOpt d radius
          let push := (1.0 - ratio) * 0.018
          some (acc.1 + ox * inv * push, acc.2 + oz * inv * push)
        else some acc)
    ((0 : ℝ), (0 : ℝ))

/-- `calculatePlayerSeparation` from `pets-core/ai/social.js`. -/
def calculatePlayerSeparation (petPos playerPos : ℝ × ℝ) (radius : ℝ := 1.6) :
    Option (ℝ × ℝ) :=
  let ox := petPos.1 - playerPos.1
  let oz := petPos.2 - playerPos.2
  let d2 := ox * ox + oz * oz
  if d2 < radius * radius ∧ d2 > 0.0001 then do
    let d := Real.sqrt d2
    let inv ← jsDivOpt 1 d
    some (ox * inv * 0.022, oz * inv * 0.022)
  else some (0, 0)

/-- `startSocialInteraction` from `pets-core/ai/social.js`, with the
duration draw injected; returns both updated social states. -/
def startSocialInteraction (socialA socialB : Social) (posA posB : ℝ × ℝ)
    (idA idB : ℕ) (time r : ℝ) : Social × Social :=
  let duration := randRange 1.05 1.5 r
  let untilT := time + duration
  ({ socialA with active := true, untilT := untilT, partnerId := some idB
                  partnerPos := posB
                  facePartnerYaw := jsAtan2 (posB.1 - posA.1) (posB.2 - posA.2) },
   { socialB with active := true, untilT := untilT, partnerId := some idA
                  partnerPos := posA
                  facePartnerYaw := jsAtan2 (posA.1 - posB.1) (posA.2 - posB.2) })

/-- The bounded chaser≠runner retry loop shared by both chase-arbitration
variants: `while (b.id === a.id && guard++ < 6) b = pick(pets)`.
`fuel` is the remaining guard budget (6 at entry), `i` the next random
stream index; returns the final `b` and next unread index. -/
def retryPick (a : ℕ) (pets : List ℕ) (rs : ℕ → ℝ) : ℕ → ℕ → ℕ → ℕ × ℕ
  | i, b, 0 => (b, i)
  | i, b, fuel + 1 =>
    if b = a then retryPick a pets rs (i + 1) (pickId pets (rs i)) fuel
    else (b, i)

/-- `maybeStartChase` from `pets-core/ai/social.js`: skips if a chase is
active, the population is below 2, or the probability roll fails; draws a
chaser and a runner with the bounded retry loop; on exhaustion
(`b.id === a.id` still) starts nothing.  Returns the updated chase mode
and whether a chase was started. -/
def maybeStartChase (chase : ChaseMode) (pets : List ℕ) (time : ℝ) (rs : ℕ → ℝ) :
    ChaseMode × Bool :=
  if chase.active then (chase, false)
  else if pets.length < 2 then (chase, false)
  else if ¬ (rs 0 < chaseChancePerS * (1 / 60)) then (chase, false)
  else
    let a := pickId pets (rs 1)
    let b0 := pickId pets (rs 2)
    let bi := retryPick a pets rs 3 b0 6
    if bi.1 = a then (chase, false)
    else
      ({ chase with active := true, chaserId := some a, runnerId := some bi.1
                    untilT := time + randRange 3.8 5.2 (rs bi.2) }, true)

/-! ## Coordinator (`PetManager` frame loop in `GardenPets.jsx`) -/

/-- A snapshot pose entry, as built from `api.getPose()` each tick. -/
structure Pose where
  x : ℝ
  z : ℝ
  mode : Mode

/-- Discrete events the coordinator emits during a tick. -/
inductive MEvent where
  | greet (a b : ℕ)
  | nudgeSleep (id : ℕ) (spot : ℝ × ℝ)
  deriving DecidableEq

/-- Coordinator-owned state: the frame counter, the pair-cooldown map
(`none` for a key never written — a missing entry), the singleton chase
episode, every pet's `social.current` (written by the coordinator through
`setSocial`), and the cuddle-pile hint. -/
structure MState where
  frame : ℕ
  cooldown : ℕ × ℕ → Option ℝ
  chase : ChaseMode
  socials : ℕ → Social
  lastSleepSpot : Option (ℝ × ℝ)

/-- The coordinator's initial state (fresh refs in `PetManager`). -/
def mInit : MState :=
  { frame := 0, cooldown := fun _ => none, chase := createChaseMode
    socials := fun _ => createSocialState, lastSleepSpot := none }

/-- The cooldown read `pairCooldown.current.get(key) || 0`: a missing
entry behaves as "no cooldown". -/
def cooldownRead (st : MState) (key : ℕ × ℕ) : ℝ := (st.cooldown key).getD 0

/-- The external inputs of one coordinator tick: simulation time, the
roster (ids in order), the pose snapshot, the rest spots, and the
`Math.random()` stream for this tick. -/
structure TickIn where
  t : ℝ
  pets : List ℕ
  posMap : ℕ → Option Pose
  rugs : List (ℝ × ℝ)
  rs : ℕ → ℝ

/-- The pet-side `setSocial` callback registered in the Pet component
(src/unnamed/part_002 lines 517–527): copies the payload and derives
`facePartnerYaw` from the partner position and own position. -/
def setSocial (s : Social) (selfPos : ℝ × ℝ) (active : Bool) (untilT : ℝ)
    (partnerId : Option ℕ) (partnerPos : Option (ℝ × ℝ)) : Social :=
  let s1 := { s with active := active, untilT := untilT, partnerId := partnerId }
  match partnerPos with
  | some pp =>
    { s1 with partnerPos := pp
              facePartnerYaw := jsAtan2 (pp.1 - selfPos.1) (pp.2 - selfPos.2) }
  | none => s1

/-- The inline chase-start burst of `GardenPets.jsx` (lines 1881–1893):
same roll and bounded retry as `maybeStartChase`, but no skip when the
retries are exhausted — the episode is started with whatever `b` the loop
ended on.  Returns the updated chase mode and the next random index. -/
def gardenChaseStart (chase : ChaseMode) (pets : List ℕ) (t : ℝ) (rs : ℕ → ℝ) :
    ChaseMode × ℕ :=
  if 2 ≤ pets.length ∧ rs 0 < chaseChancePerS * (1 / 60) then
    let a := pickId pets (rs 1)
    let b0 := pickId pets (rs 2)
    let bi := retryPick a pets rs 3 b0 6
    ({ chase with active := true, chaserId := some a, runnerId := some bi.1
                  untilT := t + randRange 3.8 5.2 (rs bi.2) }, bi.2 + 1)
  else (chase, 1)

/-- The chase-position refresh and expiry step run while an episode is
active (`GardenPets.jsx` lines 1871–1880). -/
def gardenChaseUpdate (chase : ChaseMode) (inp : TickIn) : ChaseMode :=
  let c1 := match chase.chaserId.bind inp.posMap with
    | some p => { chase with chaserPos := (p.x, p.z) }
    | none => chase
  let c2 := match c1.runnerId.bind inp.posMap with
    | some p => { c1 with runnerPos := (p.x, p.z) }
    | none => c1
  if inp.t > c2.untilT then
    { c2 with active := false, chaserId := none, runnerId := none }
  else c2

/-- One iteration of the greet scan's pair loop (`GardenPets.jsx` lines
1900–1953) for the pair `(a, b)`: skip on missing poses, skip if either
pet is chase-involved, skip under an unexpired cooldown, and otherwise
greet when within the social distance — writing the cooldown, setting both
socials through `setSocial`, emitting the greet event, and running the
cuddle-pile branch.  `i` is the next random index; the returned value
carries the updated state, the events of this pair, and the next index. -/
def greetPair (st : MState) (inp : TickIn) (i : ℕ) (a b : ℕ) :
    MState × List MEvent × ℕ :=
  match inp.posMap a, inp.posMap b with
  | some pa, some pb =>
    if st.chase.active = true ∧
        (some a = st.chase.chaserId ∨ some a = st.chase.runnerId ∨
         some b = st.chase.chaserId ∨ some b = st.chase.runnerId) then
      (st, [], i)
    else
      let key := getPairKey a b
      if inp.t < cooldownRead st key then (st, [], i)
      else
        let dx := pa.x - pb.x
        let dz := pa.z - pb.z
        let d2 := dx * dx + dz * dz
        if d2 < socialDistance * socialDistance then
          let cooldown1 := fun k =>
            if k = key then some (inp.t + socialCooldownS) else st.cooldown k
          let duration := 1.05 + inp.rs i * 0.45
          let untilT := inp.t + duration
          let socials1 := fun id =>
            if id = a then
              setSocial (st.socials a) (pa.x, pa.z) true untilT (some b)
                (some (pb.x, pb.z))
            else if id = b then
              setSocial (st.socials b) (pb.x, pb.z) true untilT (some a)
                (some (pa.x, pa.z))
            else st.socials id
          if pa.mode = Mode.sleeping ∨ pb.mode = Mode.sleeping then
            if inp.rs (i + 1) < 0.35 then
              let spot := match st.lastSleepSpot with
                | some s => s
                | none => pickSpot inp.rugs (inp.rs (i + 2))
              let nudges :=
                (if pa.mode = Mode.sleeping ∧ pb.mode ≠ Mode.sleeping then
                    [MEvent.nudgeSleep b spot] else []) ++
                (if pb.mode = Mode.sleeping ∧ pa.mode ≠ Mode.sleeping then
                    [MEvent.nudgeSleep a spot] else [])
              ({ st with cooldown := cooldown1, socials := socials1
                         lastSleepSpot := some spot },
               MEvent.greet a b :: nudges,
               if st.lastSleepSpot.isSome then i + 2 else i + 3)
            else
              ({ st with cooldown := cooldown1, socials := socials1 },
               [MEvent.greet a b], i + 2)
          else
            ({ st with cooldown := cooldown1, socials := socials1 },
             [MEvent.greet a b], i + 1)
        else (st, [], i)
  | _, _ => (st, [], i)

/-- Fold of `greetPair` over a list of roster pairs, threading state,
accumulated events and the random index. -/
def scanPairsAux (inp : TickIn) :
    List (ℕ × ℕ) → MState × List MEvent × ℕ → MState × List MEvent × ℕ
  | [], acc => acc
  | p :: rest, (st, evs, i) =>
    let r := greetPair st inp i p.1 p.2
    scanPairsAux inp rest (r.1, evs ++ r.2.1, r.2.2)

/-- All roster pairs `(i, j)` with `i < j`, in the double-loop order of
the source. -/
def allPairs : List ℕ → List (ℕ × ℕ)
  | [] => []
  | x :: xs => xs.map (fun y => (x, y)) ++ allPairs xs

/-- The greet scan over every unordered roster pair. -/
def scanPairs (st : MState) (inp : TickIn) (i : ℕ) : MState × List MEvent :=
  let r := scanPairsAux inp (allPairs inp.pets) (st, [], i)
  (r.1, r.2.1)

/-- One coordinator tick (`PetManager`'s `useFrame` body, `GardenPets.jsx`
lines 1856–1956): increment the frame counter, refresh/expire or
probabilistically start the chase episode, and run the greet scan on every
`socialCheckEveryFrames`-th frame when at least two pets exist. -/
def managerTick (st : MState) (inp : TickIn) : MState × List MEvent :=
  let st1 := { st with frame := st.frame + 1 }
  let chased :=
    if st1.chase.active then ({ st1 with chase := gardenChaseUpdate st1.chase inp }, 1)
    else
      let r := gardenChaseStart st1.chase inp.pets inp.t inp.rs
      ({ st1 with chase := r.1 }, r.2)
  let st2 := chased.1
  if st2.frame % socialCheckEveryFrames ≠ 0 then (st2, [])
  else if inp.pets.length < 2 then (st2, [])
  else scanPairs st2 inp chased.2

/-- Run a sequence of coordinator ticks, concatenating emitted events. -/
def runTicks (st : MState) : List TickIn → MState × List MEvent
  | [] => (st, [])
  | inp :: rest =>
    let r := managerTick st inp
    let r2 := runTicks r.1 rest
    (r2.1, r.2 ++ r2.2)

/-! ## Interaction overlay and integration (src/unnamed/part_002 `Pet`) -/

/-- The per-frame affinity ("love") decay of the Pet component
(src/unnamed/part_002 line 669):
`love = Math.max(0, love - dt * 0.55)`. -/
def loveDecay (love dt : ℝ) : ℝ := max 0 (love - dt * 0.55)

/-- Position integration and hard clamp (src/unnamed/part_002 lines
783–787): explicit Euler at `dt * 60` scaling, then a component-wise clamp
to the world bounds. -/
def integratePosition (pos vel : ℝ × ℝ) (dt : ℝ) (bounds : Bounds) : ℝ × ℝ :=
  let x := pos.1 + vel.1 * dt * 60
  let z := pos.2 + vel.2 * dt * 60
  (clamp x bounds.minX bounds.maxX, clamp z bounds.minZ bounds.maxZ)

/-- The drag handler's position commit (src/unnamed/part_002 lines
613–616): the ray/plane hit point is clamped to the world bounds before
being written. -/
def dragPosition (hit : ℝ × ℝ) (bounds : Bounds) : ℝ × ℝ :=
  (clamp hit.1 bounds.minX bounds.maxX, clamp hit.2 bounds.minZ bounds.maxZ)

/-! ## Roster management (src/unnamed/part_000 `PetProvider`) -/

/-- Default `maxPets` of `PetProvider`. -/
def defaultMaxPets : ℕ := 12

/-- A stored pet record as built by `addPet` in the context provider;
`payload` stands for the caller-supplied `petData` spread. -/
structure PetRec (α : Type) where
  id : ℕ
  payload : α
  bondLevel : ℝ
  happiness : ℝ
  assignedMemoryId : Option ℕ
  createdAt : ℝ

/-- Events of the pet event emitter relevant to the roster. -/
inductive PetEvent where
  | spawned (id : ℕ)
  | removed (id : ℕ)
  deriving DecidableEq

/-- `addPet` from the context provider (src/unnamed/part_000 lines 70–84):
returns `null` and leaves everything untouched when the roster is full;
otherwise appends one freshly built pet, emits `PET_SPAWNED`, and returns
the new pet.  The generated id and `Date.now()` are injected. -/
def addPet {α : Type} (pets : List (PetRec α)) (maxPets : ℕ) (payload : α)
    (newId : ℕ) (now : ℝ) : List (PetRec α) × Option (PetRec α) × List PetEvent :=
  if maxPets ≤ pets.length then (pets, none, [])
  else
    let newPet : PetRec α :=
      { id := newId, payload := payload, bondLevel := 0, happiness := 0.5
        assignedMemoryId := none, createdAt := now }
    (pets ++ [newPet], some newPet, [PetEvent.spawned newId])

/-! ## Basic lemmas -/

theorem clamp_mem (v a b : ℝ) (hab : a ≤ b) : a ≤ clamp v a b ∧ clamp v a b ≤ b := by
  unfold clamp
  constructor
  · exact le_max_left a (min b v)
  · exact max_le hab (min_le_left b v)

/-! ## C6: hard clamp keeps positions inside the world bounds -/

/-- C6: for every tick, agent and finite input, the committed position
after integration satisfies `minX ≤ x ≤ maxX` and `minZ ≤ z ≤ maxZ`, and
the dragged/held position commit is clamped to the same bounds. -/
theorem integration_within_bounds (bounds : Bounds)
    (hx : bounds.minX ≤ bounds.maxX) (hz : bounds.minZ ≤ bounds.maxZ) :
    (∀ pos vel : ℝ × ℝ, ∀ dt : ℝ,
        bounds.minX ≤ (integratePosition pos vel dt bounds).1 ∧
        (integratePosition pos vel dt bounds).1 ≤ bounds.maxX ∧
        bounds.minZ ≤ (integratePosition pos vel dt bounds).2 ∧
        (integratePosition pos vel dt bounds).2 ≤ bounds.maxZ) ∧
    (∀ hit : ℝ × ℝ,
        bounds.minX ≤ (dragPosition hit bounds).1 ∧
        (dragPosition hit bounds).1 ≤ bounds.maxX ∧
        bounds.minZ ≤ (dragPosition hit bounds).2 ∧
        (dragPosition hit bounds).2 ≤ bounds.maxZ) := by
  constructor
  · intro pos vel dt
    have h1 := clamp_mem (pos.1 + vel.1 * dt * 60) bounds.minX bounds.maxX hx
    have h2 := clamp_mem (pos.2 + vel.2 * dt * 60) bounds.minZ bounds.maxZ hz
    exact ⟨h1.1, h1.2, h2.1, h2.2⟩
  · intro hit
    have h1 := clamp_mem hit.1 bounds.minX bounds.maxX hx
    have h2 := clamp_mem hit.2 bounds.minZ bounds.maxZ hz
    exact ⟨h1.1, h1.2, h2.1, h2.2⟩

/-- Witness for C6 at the garden bounds and a fast outward velocity. -/
theorem integration_within_bounds_witness :
    (-9.5 : ℝ) ≤ (integratePosition (0, 0) (100, -100) 1 ⟨-9.5, 9.5, -9.5, 9.5⟩).1 ∧
    (integratePosition (0, 0) (100, -100) 1 ⟨-9.5, 9.5, -9.5, 9.5⟩).1 ≤ 9.5 ∧
    (-9.5 : ℝ) ≤ (integratePosition (0, 0) (100, -100) 1 ⟨-9.5, 9.5, -9.5, 9.5⟩).2 ∧
    (integratePosition (0, 0) (100, -100) 1 ⟨-9.5, 9.5, -9.5, 9.5⟩).2 ≤ 9.5 := by
  have h := integration_within_bounds ⟨-9.5, 9.5, -9.5, 9.5⟩ (by norm_num) (by norm_num)
  exact h.1 (0, 0) (100, -100) 1

/-! ## C8: affinity decay -/

/-- C8: with no rub events, affinity evolves as
`affinity(t+Δ) = max(0, affinity(t) − 0.55·Δ)`: the per-frame decay steps
compose to exactly this law, the value never drops below 0, and it is
monotonically non-increasing. -/
theorem affinity_decay (love d1 d2 : ℝ) (h0 : 0 ≤ love) (h1 : 0 ≤ d1) (h2 : 0 ≤ d2) :
    loveDecay love d1 = max 0 (love - 0.55 * d1) ∧
    0 ≤ loveDecay love d1 ∧
    loveDecay love d1 ≤ love ∧
    (d1 ≤ d2 → loveDecay love d2 ≤ loveDecay love d1) ∧
    loveDecay (loveDecay love d1) d2 = loveDecay love (d1 + d2) := by
  unfold loveDecay
  refine ⟨by ring_nf, le_max_left _ _, ?_, ?_, ?_⟩
  · exact max_le h0 (by nlinarith)
  · intro hle
    exact max_le_max le_rfl (by nlinarith)
  · rcases le_total (love - d1 * 0.55) 0 with h | h
    · rw [max_eq_left h, max_eq_left (by linarith), max_eq_left (by nlinarith)]
    · rw [max_eq_right h]
      congr 1
      ring

/-- Witness for C8 at affinity 1 over steps of 1 s and 2 s. -/
theorem affinity_decay_witness :
    loveDecay 1 1 = max 0 (1 - 0.55 * 1) ∧
    0 ≤ loveDecay 1 1 ∧
    loveDecay 1 1 ≤ 1 ∧
    ((1 : ℝ) ≤ 2 → loveDecay 1 2 ≤ loveDecay 1 1) ∧
    loveDecay (loveDecay 1 1) 2 = loveDecay 1 (1 + 2) :=
  affinity_decay 1 1 2 (by norm_num) (by norm_num) (by norm_num)

/-! ## C10: roster cap in `addPet` -/

/-- C10: a full roster is returned unchanged with a `null` result and no
spawn event; a roster below `maxPets` gets exactly one new pet appended,
which is also returned, together with one spawn event. -/
theorem addPet_cap {α : Type} (pets : List (PetRec α)) (maxPets : ℕ) (payload : α)
    (newId : ℕ) (now : ℝ) :
    (maxPets ≤ pets.length →
        addPet pets maxPets payload newId now = (pets, none, [])) ∧
    (pets.length < maxPets →
        (addPet pets maxPets payload newId now).1 =
          pets ++ [⟨newId, payload, 0, 0.5, none, now⟩] ∧
        (addPet pets maxPets payload newId now).1.length = pets.length + 1 ∧
        (addPet pets maxPets payload newId now).2.1 =
          some ⟨newId, payload, 0, 0.5, none, now⟩ ∧
        (addPet pets maxPets payload newId now).2.2 = [PetEvent.spawned newId]) := by
  constructor
  · intro h
    unfold addPet
    rw [if_pos h]
  · intro h
    unfold addPet
    rw [if_neg (by omega)]
    simp

/-- Witness for C10: a full 1-pet roster with cap 1 is left unchanged, and
an empty roster with cap 12 grows to one pet. -/
theorem addPet_cap_witness :
    (addPet [(⟨0, 0, 0, 0.5, none, 0⟩ : PetRec ℕ)] 1 7 1 2 =
      ([⟨0, 0, 0, 0.5, none, 0⟩], none, [])) ∧
    (addPet ([] : List (PetRec ℕ)) 12 7 1 2).1.length = 1 := by
  constructor
  · exact (addPet_cap [⟨0, 0, 0, 0.5, none, 0⟩] 1 7 1 2).1 (by norm_num)
  · have h := (addPet_cap ([] : List (PetRec ℕ)) 12 7 1 2).2 (by norm_num)
    simpa using h.2.1

/-! ## C2: distinctness of chaser and runner -/

/-- C2 counterexample: the inline chase arbitration of `GardenPets.jsx`
has the same bounded retry loop but no skip on exhaustion — with a random
stream that always draws the first pet of a two-pet roster, it starts an
episode whose chaser and runner are the same agent. -/
theorem chase_draw_counterexample :
    (gardenChaseStart createChaseMode [0, 1] 1 (fun _ => 0)).1.active = true ∧
    (gardenChaseStart createChaseMode [0, 1] 1 (fun _ => 0)).1.chaserId = some 0 ∧
    (gardenChaseStart createChaseMode [0, 1] 1 (fun _ => 0)).1.runnerId = some 0 := by
  have hpick : pickId [0, 1] (0 : ℝ) = 0 := by
    simp [pickId, pickIdx]
  unfold gardenChaseStart
  rw [if_pos (by constructor
                 · norm_num
                 · norm_num [chaseChancePerS])]
  simp only [hpick, retryPick]
  norm_num [hpick]

/-- C2 (amended): `maybeStartChase` in the social module draws the runner
with at most 6 retries and, on exhaustion, skips the tick; consequently
whenever it reports an episode started, the chosen chaser and runner ids
are distinct. -/
theorem maybeStartChase_distinct (chase : ChaseMode) (pets : List ℕ) (time : ℝ)
    (rs : ℕ → ℝ) (h : (maybeStartChase chase pets time rs).2 = true) :
    (maybeStartChase chase pets time rs).1.chaserId ≠
      (maybeStartChase chase pets time rs).1.runnerId := by
  unfold maybeStartChase at h ⊢
  by_cases h1 : chase.active = true
  · rw [if_pos h1] at h
    exact absurd h (by simp)
  rw [if_neg h1] at h ⊢
  by_cases h2 : pets.length < 2
  · rw [if_pos h2] at h
    exact absurd h (by simp)
  rw [if_neg h2] at h ⊢
  by_cases h3 : ¬ rs 0 < chaseChancePerS * (1 / 60)
  · rw [if_pos h3] at h
    exact absurd h (by simp)
  rw [if_neg h3] at h ⊢
  dsimp only at h ⊢
  by_cases hne : (retryPick (pickId pets (rs 1)) pets rs 3 (pickId pets (rs 2)) 6).1 =
      pickId pets (rs 1)
  · rw [if_pos hne] at h
    exact absurd h (by simp)
  · rw [if_neg hne] at h ⊢
    simp only [ne_eq, Option.some.injEq]
    exact fun hc => hne hc.symm

/-- Witness for C2: a two-pet roster with a passing roll and a first
distinct draw starts an episode, and its chaser and runner differ. -/
theorem maybeStartChase_distinct_witness :
    (maybeStartChase createChaseMode [0, 1] 1
        (fun n => if n ≤ 1 then 0 else 1 / 2)).2 = true ∧
    (maybeStartChase createChaseMode [0, 1] 1
        (fun n => if n ≤ 1 then 0 else 1 / 2)).1.chaserId ≠
      (maybeStartChase createChaseMode [0, 1] 1
        (fun n => if n ≤ 1 then 0 else 1 / 2)).1.runnerId := by
  have hstart : (maybeStartChase createChaseMode [0, 1] 1
      (fun n => if n ≤ 1 then 0 else 1 / 2)).2 = true := by
    have hpick0 : pickId [0, 1] ((1 : ℝ) / 2 * 0) = 0 := by
      simp [pickId, pickIdx]
    unfold maybeStartChase
    rw [if_neg (by simp [createChaseMode])]
    rw [if_neg (by simp)]
    have hroll : ((if (0 : ℕ) ≤ 1 then (0 : ℝ) else 1 / 2)) <
        chaseChancePerS * (1 / 60) := by
      norm_num [chaseChancePerS]
    rw [if_neg (by simpa using not_not_intro hroll)]
    have ha : pickId [0, 1] (if (1 : ℕ) ≤ 1 then (0 : ℝ) else 1 / 2) = 0 := by
      simp [pickId, pickIdx]
    have hb : pickId [0, 1] (if (2 : ℕ) ≤ 1 then (0 : ℝ) else 1 / 2) = 1 := by
      norm_num [pickId, pickIdx]
    rw [ha, hb]
    simp [retryPick]
  exact ⟨hstart, maybeStartChase_distinct createChaseMode [0, 1] 1
    (fun n => if n ≤ 1 then 0 else 1 / 2) hstart⟩

/-! ## C3: following transitions in `updateBrain` -/

theorem updateBrain_eq_rest (brain : BrainState) (p : BrainParams)
    (hheld : p.isHeld = false)
    (hchase : ∀ ch, p.chase = some ch → ch.active = false) :
    updateBrain brain p = updateBrainRest { brain with t := brain.t - p.dt } p := by
  unfold updateBrain
  rw [if_neg (by simp [hheld])]
  cases hc : p.chase with
  | none => rfl
  | some ch =>
    have hact := hchase ch hc
    simp [hact]

/-- C3 counterexample: a Curious agent at squared distance 100 (> 64) from
the observer stays Curious after the brain update — only Wandering agents
transition to Following, contrary to the claim's "mode is not Sleeping". -/
theorem brain_following_counterexample :
    (updateBrain ⟨Mode.curious, 5, 0, 0, (0, 0), 0⟩
        ⟨1 / 60, 10, false, false, 100, none, 0, [], 0, ⟨1, 1, 1, 1, 1, 1, 1, 1⟩⟩).mode =
      Mode.curious ∧
    (updateBrain ⟨Mode.curious, 5, 0, 0, (0, 0), 0⟩
        ⟨1 / 60, 10, false, false, 100, none, 0, [], 0, ⟨1, 1, 1, 1, 1, 1, 1, 1⟩⟩).mode ≠
      Mode.following := by
  have h : (updateBrain ⟨Mode.curious, 5, 0, 0, (0, 0), 0⟩
      ⟨1 / 60, 10, false, false, 100, none, 0, [], 0, ⟨1, 1, 1, 1, 1, 1, 1, 1⟩⟩).mode =
      Mode.curious := by
    rw [updateBrain_eq_rest _ _ rfl (by intro ch hc; cases hc)]
    unfold updateBrainRest
    rw [if_neg (by simp)]
    unfold sleepCheck
    rw [if_neg (by intro hc; norm_num at hc)]
    unfold wanderStep
    rw [if_neg (by intro hc; exact absurd hc (by decide))]
    unfold followRevert
    rw [if_neg (by intro hc; exact absurd hc.1 (by decide))]
    unfold timerExpiry
    rw [if_neg (by intro hc; norm_num at hc)]
  exact ⟨h, by rw [h]; intro hc; cases hc⟩

/-- C3 (amended): when not held, not chase-assigned and not socially
active, only a Wandering agent whose squared observer distance exceeds 64
transitions to Following that same tick; a Following agent whose squared
distance falls back to at most 64 reverts to Wandering with
`walkS` reset to 0, unless the stochastic idle-sleep check fires that tick
(which sends it to Sleeping instead). -/
theorem brain_follow_transitions (brain : BrainState) (p : BrainParams)
    (hheld : p.isHeld = false)
    (hchase : ∀ ch, p.chase = some ch → ch.active = false)
    (hsoc : p.socialActive = false) :
    (brain.mode = Mode.wandering → p.playerDist2 > 64 →
        (updateBrain brain p).mode = Mode.following) ∧
    (brain.mode = Mode.following → p.playerDist2 ≤ 64 →
        ¬(p.nowS - brain.lastInteractAt > sleepAfterNoInteractS ∧
            p.rand.sleepRoll < 0.035 * p.dt) →
        (updateBrain brain p).mode = Mode.wandering ∧
        (updateBrain brain p).walkS = 0) := by
  rw [updateBrain_eq_rest brain p hheld hchase]
  unfold updateBrainRest
  rw [if_neg (by simp [hsoc])]
  constructor
  · intro hmode hdist
    have hb2 : sleepCheck { brain with t := brain.t - p.dt } p =
        { brain with t := brain.t - p.dt } := by
      unfold sleepCheck
      rw [if_neg (by intro hc; linarith [hc.2.1])]
    rw [hb2]
    have hb3 : wanderStep { brain with t := brain.t - p.dt } p =
        { brain with t := brain.t - p.dt, walkS := brain.walkS + p.dt
                     mode := Mode.following } := by
      unfold wanderStep
      rw [if_pos (by simpa using hmode), if_pos hdist]
    rw [hb3]
    unfold followRevert
    rw [if_neg (by intro hc; linarith [hc.2])]
    unfold timerExpiry
    rw [if_neg (by intro hc; rcases hc.1 with h | h | h <;> cases h)]
  · intro hmode hdist hsleep
    have hb2 : sleepCheck { brain with t := brain.t - p.dt } p =
        { brain with t := brain.t - p.dt } := by
      unfold sleepCheck
      rw [if_neg (by intro hc; exact hsleep ⟨hc.2.2.1, hc.2.2.2⟩)]
    rw [hb2]
    have hb3 : wanderStep { brain with t := brain.t - p.dt } p =
        { brain with t := brain.t - p.dt } := by
      unfold wanderStep
      rw [if_neg (by simp [hmode])]
    rw [hb3]
    have hb4 : followRevert { brain with t := brain.t - p.dt } p =
        { brain with t := brain.t - p.dt, mode := Mode.wandering, walkS := 0 } := by
      unfold followRevert
      rw [if_pos ⟨by simpa using hmode, hdist⟩]
    rw [hb4]
    unfold timerExpiry
    rw [if_neg (by intro hc; rcases hc.1 with h | h | h <;> cases h)]
    exact ⟨rfl, rfl⟩

/-- Witness for C3: a Wandering agent at squared distance 100 starts
Following this tick, and a Following agent at squared distance 50 (with
the idle-sleep draw failing) reverts to Wandering with `walkS` 0. -/
theorem brain_follow_transitions_witness :
    (updateBrain ⟨Mode.wandering, 0, 0, 0, (0, 0), 0⟩
        ⟨1 / 60, 10, false, false, 100, none, 0, [], 0, ⟨1, 1, 1, 1, 1, 1, 1, 1⟩⟩).mode =
      Mode.following ∧
    (updateBrain ⟨Mode.following, 0, 0, 3, (0, 0), 0⟩
        ⟨1 / 60, 10, false, false, 50, none, 0, [], 0, ⟨1, 1, 1, 1, 1, 1, 1, 1⟩⟩).mode =
      Mode.wandering ∧
    (updateBrain ⟨Mode.following, 0, 0, 3, (0, 0), 0⟩
        ⟨1 / 60, 10, false, false, 50, none, 0, [], 0, ⟨1, 1, 1, 1, 1, 1, 1, 1⟩⟩).walkS =
      0 := by
  have h1 := (brain_follow_transitions ⟨Mode.wandering, 0, 0, 0, (0, 0), 0⟩
      ⟨1 / 60, 10, false, false, 100, none, 0, [], 0, ⟨1, 1, 1, 1, 1, 1, 1, 1⟩⟩
      rfl (by intro ch hc; cases hc) rfl).1 rfl (by norm_num)
  have h2 := (brain_follow_transitions ⟨Mode.following, 0, 0, 3, (0, 0), 0⟩
      ⟨1 / 60, 10, false, false, 50, none, 0, [], 0, ⟨1, 1, 1, 1, 1, 1, 1, 1⟩⟩
      rfl (by intro ch hc; cases hc) rfl).2 rfl (by norm_num)
      (by intro hc; norm_num [sleepAfterNoInteractS] at hc)
  exact ⟨h1, h2.1, h2.2⟩

/-! ## C4: yaw damping and the shortest angular distance -/

theorem fmodF_eq_mul_fract (x y : ℝ) (hy : y ≠ 0) :
    fmodF x y = y * Int.fract (x / y) := by
  unfold fmodF
  rw [Int.fract]
  field_simp

theorem fmodF_nonneg (x y : ℝ) (hy : 0 < y) : 0 ≤ fmodF x y := by
  rw [fmodF_eq_mul_fract x y (ne_of_gt hy)]
  exact mul_nonneg (le_of_lt hy) (Int.fract_nonneg _)

theorem fmodF_lt (x y : ℝ) (hy : 0 < y) : fmodF x y < y := by
  rw [fmodF_eq_mul_fract x y (ne_of_gt hy)]
  calc y * Int.fract (x / y) < y * 1 :=
        mul_lt_mul_of_pos_left (Int.fract_lt_one _) hy
    _ = y := mul_one y

theorem fmodF_eq_self (z y : ℝ) (hy : 0 < y) (h0 : 0 ≤ z) (h1 : z < y) :
    fmodF z y = z := by
  unfold fmodF
  have hfl : ⌊z / y⌋ = 0 := by
    rw [Int.floor_eq_zero_iff]
    constructor
    · exact div_nonneg h0 (le_of_lt hy)
    · exact (div_lt_one hy).mpr h1
  rw [hfl]
  simp

theorem fmodF_add_mul_int (x y : ℝ) (k : ℤ) (hy : y ≠ 0) :
    fmodF (x + y * k) y = fmodF x y := by
  unfold fmodF
  rw [add_div, mul_div_cancel_left₀ (k : ℝ) hy, Int.floor_add_int]
  push_cast
  ring

/-- C4 (amended): whenever the raw difference satisfies `b - a ≥ -π` (so
the truncated JavaScript remainder agrees with the floored one), a
`dampAngle` step with damping factor `t ∈ (0, 1)` toward a target not
congruent to the current yaw strictly reduces the shortest angular
distance — the correction moves along the shorter arc and cannot
overshoot.  For `b - a < -π` the remainder picks the longer arc (see the
counterexample). -/
theorem dampAngle_contracts (a b t : ℝ) (ht0 : 0 < t) (ht1 : t < 1)
    (hrange : -π ≤ b - a) (hne : angDist a b ≠ 0) :
    angDist (dampAngle a b t) b < angDist a b := by
  have hy : (0 : ℝ) < π * 2 := by positivity
  have hx0 : (0 : ℝ) ≤ b - a + π := by linarith
  have hm0 : 0 ≤ fmodF (b - a + π) (π * 2) := fmodF_nonneg _ _ hy
  have hm1 : fmodF (b - a + π) (π * 2) < π * 2 := fmodF_lt _ _ hy
  have hdamp : dampAngle a b t = a + (fmodF (b - a + π) (π * 2) - π) * t := by
    unfold dampAngle jsFmod
    rw [if_pos hx0]
  have hAD : angDist a b = |fmodF (b - a + π) (π * 2) - π| := rfl
  have hdne : fmodF (b - a + π) (π * 2) - π ≠ 0 := by
    intro h
    exact hne (by rw [hAD, h, abs_zero])
  have habs : |fmodF (b - a + π) (π * 2) - π| ≤ π := by
    rw [abs_le]
    constructor <;> linarith
  have habs0 : 0 < |fmodF (b - a + π) (π * 2) - π| := abs_pos.mpr hdne
  have habs2 : |(fmodF (b - a + π) (π * 2) - π) * (1 - t)| < π := by
    rw [abs_mul, abs_of_pos (by linarith : (0 : ℝ) < 1 - t)]
    calc |fmodF (b - a + π) (π * 2) - π| * (1 - t)
        < |fmodF (b - a + π) (π * 2) - π| * 1 :=
          mul_lt_mul_of_pos_left (by linarith) habs0
      _ ≤ π := by rw [mul_one]; exact habs
  have hsmall0 : 0 < (fmodF (b - a + π) (π * 2) - π) * (1 - t) + π := by
    have h := neg_lt_of_abs_lt habs2
    linarith
  have hsmall1 : (fmodF (b - a + π) (π * 2) - π) * (1 - t) + π < π * 2 := by
    have h := lt_of_abs_lt habs2
    linarith
  have harg : b - (a + (fmodF (b - a + π) (π * 2) - π) * t) + π =
      ((fmodF (b - a + π) (π * 2) - π) * (1 - t) + π) +
        (π * 2) * (⌊(b - a + π) / (π * 2)⌋ : ℤ) := by
    have hxm : b - a + π = fmodF (b - a + π) (π * 2) +
        (π * 2) * (⌊(b - a + π) / (π * 2)⌋ : ℤ) := by
      unfold fmodF
      ring
    nlinarith [hxm]
  have hffinal : fmodF (b - (a + (fmodF (b - a + π) (π * 2) - π) * t) + π) (π * 2) =
      (fmodF (b - a + π) (π * 2) - π) * (1 - t) + π := by
    rw [harg, fmodF_add_mul_int _ _ _ (ne_of_gt hy),
      fmodF_eq_self _ _ hy (le_of_lt hsmall0) hsmall1]
  have hnew : angDist (dampAngle a b t) b =
      |(fmodF (b - a + π) (π * 2) - π) * (1 - t)| := by
    rw [hdamp]
    unfold angDist
    rw [hffinal]
    congr 1
    ring
  rw [hnew, hAD]
  rw [abs_mul, abs_of_pos (by linarith : (0 : ℝ) < 1 - t)]
  nlinarith [habs0]

/-- Witness for C4: one damping step from yaw 0 toward π with factor 1/2
halves the angular distance. -/
theorem dampAngle_contracts_witness :
    angDist 0 π ≠ 0 ∧ angDist (dampAngle 0 π (1 / 2)) π < angDist 0 π := by
  have hne : angDist 0 π ≠ 0 := by
    unfold angDist fmodF
    have hq : (π - 0 + π) / (π * 2) = 1 := by
      field_simp
      ring
    rw [hq]
    intro h
    rw [abs_eq_zero, Int.floor_one] at h
    push_cast at h
    nlinarith [Real.pi_pos]
  exact ⟨hne, dampAngle_contracts 0 π (1 / 2) (by norm_num) (by norm_num)
    (by linarith [Real.pi_pos]) hne⟩

/-- C4 counterexample: from yaw 0 toward target `-3π/2` (the same angle as
`π/2`, at shortest distance `π/2`), a damping step with factor `1/2` moves
to `-3π/4` — along the longer arc — and the shortest angular distance
grows from `π/2` to `3π/4`: the claimed strict per-step reduction and
shorter-arc property fail for raw differences below `-π`. -/
theorem dampAngle_counterexample :
    dampAngle 0 (-(3 * π) / 2) (1 / 2) = -(3 * π) / 4 ∧
    angDist 0 (-(3 * π) / 2) = π / 2 ∧
    angDist (dampAngle 0 (-(3 * π) / 2) (1 / 2)) (-(3 * π) / 2) = 3 * π / 4 ∧
    angDist (dampAngle 0 (-(3 * π) / 2) (1 / 2)) (-(3 * π) / 2) >
      angDist 0 (-(3 * π) / 2) := by
  have hpi : (0 : ℝ) < π := Real.pi_pos
  have h1 : dampAngle 0 (-(3 * π) / 2) (1 / 2) = -(3 * π) / 4 := by
    unfold dampAngle jsFmod
    have harg : -(3 * π) / 2 - 0 + π = -(π / 2) := by ring
    rw [harg, if_neg (by simp; positivity)]
    unfold fmodF
    have hq : -(-(π / 2)) / (π * 2) = 1 / 4 := by
      field_simp
      ring
    rw [hq]
    have hfl : ⌊(1 / 4 : ℝ)⌋ = 0 := by norm_num
    rw [hfl]
    push_cast
    ring
  refine ⟨h1, ?_, ?_, ?_⟩
  · unfold angDist fmodF
    have hq : (-(3 * π) / 2 - 0 + π) / (π * 2) = -(1 / 4) := by
      field_simp
      ring
    rw [hq]
    have hfl : ⌊(-(1 / 4) : ℝ)⌋ = -1 := by norm_num
    rw [hfl]
    rw [abs_of_nonneg (by push_cast; linarith)]
    push_cast
    ring
  · rw [h1]
    unfold angDist fmodF
    have hq : (-(3 * π) / 2 - -(3 * π) / 4 + π) / (π * 2) = 1 / 8 := by
      field_simp
      ring
    rw [hq]
    have hfl : ⌊(1 / 8 : ℝ)⌋ = 0 := by norm_num
    rw [hfl]
    rw [abs_of_nonpos (by push_cast; linarith)]
    push_cast
    ring
  · rw [h1]
    unfold angDist fmodF
    have hq1 : (-(3 * π) / 2 - -(3 * π) / 4 + π) / (π * 2) = 1 / 8 := by
      field_simp
      ring
    have hq2 : (-(3 * π) / 2 - 0 + π) / (π * 2) = -(1 / 4) := by
      field_simp
      ring
    rw [hq1, hq2]
    have hfl1 : ⌊(1 / 8 : ℝ)⌋ = 0 := by norm_num
    have hfl2 : ⌊(-(1 / 4) : ℝ)⌋ = -1 := by norm_num
    rw [hfl1, hfl2]
    rw [abs_of_nonpos (by push_cast; linarith), abs_of_nonneg (by push_cast; linarith)]
    push_cast
    linarith

/-! ## C9: every division is epsilon-guarded, no non-finite values -/

theorem jsDivOpt_isSome (x y : ℝ) (hy : y ≠ 0) : jsDivOpt x y = some (x / y) := by
  unfold jsDivOpt
  rw [if_neg hy]

theorem seekStep_isSome (vx vz dx dz eps gain : ℝ) (fb : ℝ × ℝ) (heps : 0 ≤ eps) :
    (seekStep vx vz dx dz eps gain fb).isSome = true := by
  unfold seekStep
  dsimp only
  split
  · rename_i hd
    have hne : Real.sqrt (dx * dx + dz * dz) ≠ 0 := by
      intro h
      rw [h] at hd
      linarith
    rw [jsDivOpt_isSome _ _ hne, jsDivOpt_isSome _ _ hne]
    rfl
  · rfl

theorem bind_isSome {α β : Type} (o : Option α) (f : α → Option β)
    (ho : o.isSome = true) (hf : ∀ a, (f a).isSome = true) :
    (o.bind f).isSome = true := by
  obtain ⟨a, ha⟩ := Option.isSome_iff_exists.mp ho
  rw [ha]
  exact hf a

theorem map_isSome {α β : Type} (f : α → β) (o : Option α) (ho : o.isSome = true) :
    (Option.map f o).isSome = true := by
  obtain ⟨a, ha⟩ := Option.isSome_iff_exists.mp ho
  rw [ha]
  rfl

theorem wallTerm_isSome (c : Prop) [Decidable c] (z : ℝ) :
    (if c then jsDivOpt z 1.25 else some 0).isSome = true := by
  split
  · rw [jsDivOpt_isSome _ _ (by norm_num)]
    rfl
  · rfl

theorem normalizeDir_isSome (dx dz : ℝ) : (normalizeDir dx dz).isSome = true := by
  unfold normalizeDir
  split
  · rename_i hl
    have hne : Real.sqrt (dx * dx + dz * dz) ≠ 0 := by
      intro h
      rw [h] at hl
      linarith
    rw [jsDivOpt_isSome _ _ hne, jsDivOpt_isSome _ _ hne]
    rfl
  · rfl

theorem foldlM_option_isSome {α β : Type} (f : β → α → Option β)
    (hf : ∀ b a, (f b a).isSome = true) :
    ∀ (l : List α) (b : β), (List.foldlM f b l).isSome = true := by
  intro l
  induction l with
  | nil => intro b; rfl
  | cons x xs ih =>
    intro b
    rw [List.foldlM_cons]
    obtain ⟨b1, hb1⟩ := Option.isSome_iff_exists.mp (hf b x)
    rw [hb1]
    simpa using ih b1

/-- C9: the movement calculation and both separation calculations guard
every vector-length division with an explicit epsilon check and never
evaluate a division with a zero denominator: on all (finite real) inputs
they return a value — no `NaN` or infinity arises, and a near-zero
steering vector falls back to no steering that tick. -/
theorem movement_no_nan :
    (∀ (brain : BrainState) (pos vel : ℝ × ℝ) (p : MoveParams),
        (calculateMovement brain pos vel p).isSome = true) ∧
    (∀ (pos : ℝ × ℝ) (posMap : List (ℕ × (ℝ × ℝ))) (selfId : ℕ) (radius : ℝ),
        (calculateSeparation pos posMap selfId radius).isSome = true) ∧
    (∀ (petPos playerPos : ℝ × ℝ) (radius : ℝ),
        (calculatePlayerSeparation petPos playerPos radius).isSome = true) := by
  refine ⟨?_, ?_, ?_⟩
  · intro brain pos vel p
    unfold calculateMovement
    by_cases h1 : brain.mode = Mode.socializing
    · rw [if_pos h1]
      rfl
    rw [if_neg h1]
    by_cases h2 : brain.mode = Mode.curious
    · rw [if_pos h2]
      rfl
    rw [if_neg h2]
    by_cases h3 : brain.mode = Mode.resting ∨ brain.mode = Mode.sleeping
    · rw [if_pos h3]
      exact seekStep_isSome _ _ _ _ _ _ _ (by norm_num)
    rw [if_neg h3]
    by_cases h4 : brain.mode = Mode.following
    · rw [if_pos h4]
      exact map_isSome _ _ (seekStep_isSome _ _ _ _ _ _ _ (by norm_num))
    rw [if_neg h4]
    by_cases h5 : brain.mode = Mode.chasing ∧ p.chase.isSome = true
    · rw [dif_pos h5]
      exact map_isSome _ _ (seekStep_isSome _ _ _ _ _ _ _ (by norm_num))
    rw [dif_neg h5]
    by_cases h6 : brain.mode = Mode.running ∧ p.chase.isSome = true
    · rw [dif_pos h6]
      exact map_isSome _ _ (seekStep_isSome _ _ _ _ _ _ _ (by norm_num))
    rw [dif_neg h6]
    -- wandering branch: four wall terms, then the normalization
    apply bind_isSome _ _ (wallTerm_isSome _ _)
    intro w1
    apply bind_isSome _ _ (wallTerm_isSome _ _)
    intro w2
    apply bind_isSome _ _ (wallTerm_isSome _ _)
    intro w3
    apply bind_isSome _ _ (wallTerm_isSome _ _)
    intro w4
    apply bind_isSome _ _ (normalizeDir_isSome _ _)
    intro dir
    rfl
  · intro pos posMap selfId radius
    unfold calculateSeparation
    apply foldlM_option_isSome
    intro acc entry
    dsimp only
    split
    · rfl
    split
    · rename_i hcond
      have hd2 : (0.0001 : ℝ) <
          (pos.1 - entry.2.1) * (pos.1 - entry.2.1) +
          (pos.2 - entry.2.2) * (pos.2 - entry.2.2) := hcond.2
      have hdne : Real.sqrt ((pos.1 - entry.2.1) * (pos.1 - entry.2.1) +
          (pos.2 - entry.2.2) * (pos.2 - entry.2.2)) ≠ 0 := by
        have := Real.sqrt_pos.mpr (by linarith :
          (0 : ℝ) < (pos.1 - entry.2.1) * (pos.1 - entry.2.1) +
            (pos.2 - entry.2.2) * (pos.2 - entry.2.2))
        linarith
      have hrne : radius ≠ 0 := by
        intro h
        rw [h] at hcond
        nlinarith [hcond.1, hcond.2]
      rw [jsDivOpt_isSome _ _ hdne, jsDivOpt_isSome _ _ hrne]
      rfl
    · rfl
  · intro petPos playerPos radius
    unfold calculatePlayerSeparation
    dsimp only
    split
    · rename_i hcond
      have hdne : Real.sqrt ((petPos.1 - playerPos.1) * (petPos.1 - playerPos.1) +
          (petPos.2 - playerPos.2) * (petPos.2 - playerPos.2)) ≠ 0 := by
        have := Real.sqrt_pos.mpr (by nlinarith [hcond.2] :
          (0 : ℝ) < (petPos.1 - playerPos.1) * (petPos.1 - playerPos.1) +
            (petPos.2 - playerPos.2) * (petPos.2 - playerPos.2))
        linarith
      rw [jsDivOpt_isSome _ _ hdne]
      rfl
    · rfl

/-! ## C1: chase involvement versus social activation -/

/-- C1 (amended): the greet scan never activates social state for a
chase-involved agent — a pair containing the active chase's chaser or
runner is skipped before anything is read or written. -/
theorem greet_skips_chase_involved (st : MState) (inp : TickIn) (i : ℕ) (a b : ℕ)
    (hact : st.chase.active = true)
    (hinv : some a = st.chase.chaserId ∨ some a = st.chase.runnerId ∨
            some b = st.chase.chaserId ∨ some b = st.chase.runnerId) :
    greetPair st inp i a b = (st, [], i) := by
  unfold greetPair
  cases hpa : inp.posMap a with
  | none => rfl
  | some pa =>
    cases hpb : inp.posMap b with
    | none => rfl
    | some pb =>
      dsimp only
      rw [if_pos ⟨hact, hinv⟩]

/-- Witness for C1's amended greet-skip guard: with an active chase whose
chaser is pet 0, the scan leaves the pair (0, 1) untouched even though the
pets stand 1.5 apart with no cooldown. -/
theorem greet_skips_chase_involved_witness :
    greetPair
      ⟨0, fun _ => none, ⟨true, 5, some 0, some 1, (0, 0), (0, 0)⟩,
        fun _ => createSocialState, none⟩
      ⟨1, [0, 1],
        fun id => if id = 0 then some ⟨0, 0, Mode.wandering⟩
                  else if id = 1 then some ⟨3 / 2, 0, Mode.wandering⟩ else none,
        [], fun _ => 1 / 2⟩ 0 0 1 =
      (⟨0, fun _ => none, ⟨true, 5, some 0, some 1, (0, 0), (0, 0)⟩,
        fun _ => createSocialState, none⟩, [], 0) :=
  greet_skips_chase_involved _ _ 0 0 1 rfl (Or.inl rfl)

/-- What a successful greet does to the coordinator state for the pair
`(a, b)`: both socials set through `setSocial` with mutual partner ids and
the shared `until`, the pair cooldown written to `t + 10`, and the greet
event emitted. -/
theorem greetPair_greets (st : MState) (inp : TickIn) (i : ℕ) (a b : ℕ) (pa pb : Pose)
    (hne : a ≠ b)
    (hpa : inp.posMap a = some pa) (hpb : inp.posMap b = some pb)
    (hguard : ¬(st.chase.active = true ∧
      (some a = st.chase.chaserId ∨ some a = st.chase.runnerId ∨
       some b = st.chase.chaserId ∨ some b = st.chase.runnerId)))
    (hcool : ¬ inp.t < cooldownRead st (getPairKey a b))
    (hdist : (pa.x - pb.x) * (pa.x - pb.x) + (pa.z - pb.z) * (pa.z - pb.z) <
      socialDistance * socialDistance) :
    (greetPair st inp i a b).1.socials a =
      setSocial (st.socials a) (pa.x, pa.z) true (inp.t + (1.05 + inp.rs i * 0.45))
        (some b) (some (pb.x, pb.z)) ∧
    (greetPair st inp i a b).1.socials b =
      setSocial (st.socials b) (pb.x, pb.z) true (inp.t + (1.05 + inp.rs i * 0.45))
        (some a) (some (pa.x, pa.z)) ∧
    (greetPair st inp i a b).1.cooldown (getPairKey a b) =
      some (inp.t + socialCooldownS) ∧
    MEvent.greet a b ∈ (greetPair st inp i a b).2.1 := by
  unfold greetPair
  rw [hpa, hpb]
  dsimp only
  rw [if_neg hguard, if_neg hcool, if_pos hdist]
  by_cases hsl : pa.mode = Mode.sleeping ∨ pb.mode = Mode.sleeping
  · rw [if_pos hsl]
    by_cases hroll : inp.rs (i + 1) < 0.35
    · rw [if_pos hroll]
      refine ⟨?_, ?_, ?_, ?_⟩
      · simp
      · simp [hne, Ne.symm hne]
      · simp
      · simp
    · rw [if_neg hroll]
      refine ⟨?_, ?_, ?_, ?_⟩
      · simp
      · simp [hne, Ne.symm hne]
      · simp
      · simp
  · rw [if_neg hsl]
    refine ⟨?_, ?_, ?_, ?_⟩
    · simp
    · simp [hne, Ne.symm hne]
    · simp
    · simp

/-- On a scan tick with a two-pet roster, an inactive chase episode and a
failing chase roll, the coordinator tick is exactly the greet processing
of the single pair. -/
theorem managerTick_scan_two (st : MState) (t : ℝ) (a b : ℕ)
    (posMap : ℕ → Option Pose) (rugs : List (ℝ × ℝ)) (rs : ℕ → ℝ)
    (hchase : st.chase.active = false)
    (hroll : ¬ rs 0 < chaseChancePerS * (1 / 60))
    (hfr : (st.frame + 1) % socialCheckEveryFrames = 0) :
    managerTick st ⟨t, [a, b], posMap, rugs, rs⟩ =
      ((greetPair { st with frame := st.frame + 1 }
          ⟨t, [a, b], posMap, rugs, rs⟩ 1 a b).1,
       (greetPair { st with frame := st.frame + 1 }
          ⟨t, [a, b], posMap, rugs, rs⟩ 1 a b).2.1) := by
  have hroll2 : ¬ rs 0 < chaseChancePerS * 60⁻¹ := by
    intro hc
    exact hroll (by simpa using hc)
  unfold managerTick gardenChaseStart
  simp [scanPairs, scanPairsAux, allPairs, hchase, hroll2, hfr]

/-! ## C7: the greet scenario -/

/-- C7: on a scan tick (frame counter hitting a multiple of 30), with two
agents within the greet distance, no unexpired pair cooldown and neither
agent chase-involved (the episode is inactive and this tick's chase roll
fails), both agents' social states become active in that same tick, with
mutually referencing partner ids, the same `until` timestamp, and a shared
duration drawn from [1.05, 1.5] seconds. -/
theorem greet_scenario (st : MState) (t : ℝ) (a b : ℕ) (pa pb : Pose)
    (posMap : ℕ → Option Pose) (rugs : List (ℝ × ℝ)) (rs : ℕ → ℝ)
    (hne : a ≠ b)
    (hchase : st.chase.active = false)
    (hroll : ¬ rs 0 < chaseChancePerS * (1 / 60))
    (hfr : (st.frame + 1) % socialCheckEveryFrames = 0)
    (hpa : posMap a = some pa) (hpb : posMap b = some pb)
    (hcool : ¬ t < cooldownRead st (getPairKey a b))
    (hdist : (pa.x - pb.x) * (pa.x - pb.x) + (pa.z - pb.z) * (pa.z - pb.z) <
      socialDistance * socialDistance)
    (hr0 : 0 ≤ rs 1) (hr1 : rs 1 < 1) :
    ((managerTick st ⟨t, [a, b], posMap, rugs, rs⟩).1.socials a).active = true ∧
    ((managerTick st ⟨t, [a, b], posMap, rugs, rs⟩).1.socials b).active = true ∧
    ((managerTick st ⟨t, [a, b], posMap, rugs, rs⟩).1.socials a).partnerId = some b ∧
    ((managerTick st ⟨t, [a, b], posMap, rugs, rs⟩).1.socials b).partnerId = some a ∧
    ((managerTick st ⟨t, [a, b], posMap, rugs, rs⟩).1.socials a).untilT =
      ((managerTick st ⟨t, [a, b], posMap, rugs, rs⟩).1.socials b).untilT ∧
    t + 1.05 ≤ ((managerTick st ⟨t, [a, b], posMap, rugs, rs⟩).1.socials a).untilT ∧
    ((managerTick st ⟨t, [a, b], posMap, rugs, rs⟩).1.socials a).untilT ≤ t + 1.5 := by
  rw [managerTick_scan_two st t a b posMap rugs rs hchase hroll hfr]
  have hg := greetPair_greets { st with frame := st.frame + 1 }
    ⟨t, [a, b], posMap, rugs, rs⟩ 1 a b pa pb hne hpa hpb
    (fun hc => by
      simp only at hc
      rw [hchase] at hc
      exact absurd hc.1 (by simp))
    hcool hdist
  rw [hg.1, hg.2.1]
  unfold setSocial
  refine ⟨rfl, rfl, rfl, rfl, rfl, ?_, ?_⟩
  · simp only
    nlinarith
  · simp only
    nlinarith

/-- Witness for C7: two wandering pets 1.5 apart on frame 30 with an empty
cooldown map and no chase, both come out socializing with each other. -/
theorem greet_scenario_witness :
    ((managerTick ⟨29, fun _ => none, createChaseMode, fun _ => createSocialState, none⟩
        ⟨1, [0, 1],
          fun id => if id = 0 then some ⟨0, 0, Mode.wandering⟩
                    else if id = 1 then some ⟨3 / 2, 0, Mode.wandering⟩ else none,
          [], fun _ => 1 / 2⟩).1.socials 0).active = true ∧
    ((managerTick ⟨29, fun _ => none, createChaseMode, fun _ => createSocialState, none⟩
        ⟨1, [0, 1],
          fun id => if id = 0 then some ⟨0, 0, Mode.wandering⟩
                    else if id = 1 then some ⟨3 / 2, 0, Mode.wandering⟩ else none,
          [], fun _ => 1 / 2⟩).1.socials 1).active = true ∧
    ((managerTick ⟨29, fun _ => none, createChaseMode, fun _ => createSocialState, none⟩
        ⟨1, [0, 1],
          fun id => if id = 0 then some ⟨0, 0, Mode.wandering⟩
                    else if id = 1 then some ⟨3 / 2, 0, Mode.wandering⟩ else none,
          [], fun _ => 1 / 2⟩).1.socials 0).partnerId = some 1 ∧
    ((managerTick ⟨29, fun _ => none, createChaseMode, fun _ => createSocialState, none⟩
        ⟨1, [0, 1],
          fun id => if id = 0 then some ⟨0, 0, Mode.wandering⟩
                    else if id = 1 then some ⟨3 / 2, 0, Mode.wandering⟩ else none,
          [], fun _ => 1 / 2⟩).1.socials 1).partnerId = some 0 := by
  have h := greet_scenario
    ⟨29, fun _ => none, createChaseMode, fun _ => createSocialState, none⟩
    1 0 1 ⟨0, 0, Mode.wandering⟩ ⟨3 / 2, 0, Mode.wandering⟩
    (fun id => if id = 0 then some ⟨0, 0, Mode.wandering⟩
               else if id = 1 then some ⟨3 / 2, 0, Mode.wandering⟩ else none)
    [] (fun _ => 1 / 2)
    (by norm_num)
    rfl
    (by norm_num [chaseChancePerS])
    (by norm_num [socialCheckEveryFrames])
    (by norm_num)
    (by norm_num)
    (by norm_num [cooldownRead])
    (by norm_num [socialDistance])
    (by norm_num)
    (by norm_num)
  exact ⟨h.1, h.2.1, h.2.2.1, h.2.2.2.1⟩

/-! ## C5: pair-cooldown correctness -/

/-- Emitting a greet for a pair writes that pair's cooldown to `t + 10`. -/
theorem greetPair_records_cooldown (st : MState) (inp : TickIn) (i : ℕ) (a b : ℕ)
    (hmem : MEvent.greet a b ∈ (greetPair st inp i a b).2.1) :
    (greetPair st inp i a b).1.cooldown (getPairKey a b) =
      some (inp.t + socialCooldownS) := by
  revert hmem
  unfold greetPair
  cases hpa : inp.posMap a with
  | none =>
    cases hpb : inp.posMap b with
    | none => intro hmem; simp at hmem
    | some pb => intro hmem; simp at hmem
  | some pa =>
    cases hpb : inp.posMap b with
    | none => intro hmem; simp at hmem
    | some pb =>
      dsimp only
      by_cases hg : st.chase.active = true ∧
          (some a = st.chase.chaserId ∨ some a = st.chase.runnerId ∨
           some b = st.chase.chaserId ∨ some b = st.chase.runnerId)
      · rw [if_pos hg]
        intro hmem
        simp at hmem
      rw [if_neg hg]
      by_cases hcool : inp.t < cooldownRead st (getPairKey a b)
      · rw [if_pos hcool]
        intro hmem
        simp at hmem
      rw [if_neg hcool]
      by_cases hdist : (pa.x - pb.x) * (pa.x - pb.x) + (pa.z - pb.z) * (pa.z - pb.z) <
          socialDistance * socialDistance
      · rw [if_pos hdist]
        by_cases hsl : pa.mode = Mode.sleeping ∨ pb.mode = Mode.sleeping
        · rw [if_pos hsl]
          by_cases hroll : inp.rs (i + 1) < 0.35
          · rw [if_pos hroll]
            intro _
            simp
          · rw [if_neg hroll]
            intro _
            simp
        · rw [if_neg hsl]
          intro _
          simp
      · rw [if_neg hdist]
        intro hmem
        simp at hmem

/-- While a pair's cooldown has not elapsed, one greet-scan pair step
neither emits a greet for that unordered pair nor changes its cooldown
entry. -/
theorem greetPair_blocked (st : MState) (inp : TickIn) (i : ℕ) (x y : ℕ)
    (key : ℕ × ℕ) (c : ℝ) (hc : st.cooldown key = some c) (ht : inp.t < c) :
    (greetPair st inp i x y).1.cooldown key = some c ∧
    (∀ u v, MEvent.greet u v ∈ (greetPair st inp i x y).2.1 →
      getPairKey u v ≠ key) := by
  unfold greetPair
  cases hpa : inp.posMap x with
  | none =>
    cases hpb : inp.posMap y with
    | none => exact ⟨hc, by intro u v hm; simp at hm⟩
    | some pb => exact ⟨hc, by intro u v hm; simp at hm⟩
  | some pa =>
    cases hpb : inp.posMap y with
    | none => exact ⟨hc, by intro u v hm; simp at hm⟩
    | some pb =>
      dsimp only
      by_cases hg : st.chase.active = true ∧
          (some x = st.chase.chaserId ∨ some x = st.chase.runnerId ∨
           some y = st.chase.chaserId ∨ some y = st.chase.runnerId)
      · rw [if_pos hg]
        exact ⟨hc, by intro u v hm; simp at hm⟩
      rw [if_neg hg]
      by_cases hcool : inp.t < cooldownRead st (getPairKey x y)
      · rw [if_pos hcool]
        exact ⟨hc, by intro u v hm; simp at hm⟩
      rw [if_neg hcool]
      have hkey : getPairKey x y ≠ key := by
        intro hk
        rw [hk] at hcool
        unfold cooldownRead at hcool
        rw [hc] at hcool
        exact hcool (by simpa using ht)
      by_cases hdist : (pa.x - pb.x) * (pa.x - pb.x) + (pa.z - pb.z) * (pa.z - pb.z) <
          socialDistance * socialDistance
      · rw [if_pos hdist]
        by_cases hsl : pa.mode = Mode.sleeping ∨ pb.mode = Mode.sleeping
        · rw [if_pos hsl]
          by_cases hroll : inp.rs (i + 1) < 0.35
          · rw [if_pos hroll]
            refine ⟨?_, ?_⟩
            · simp only
              rw [if_neg (fun hk => hkey hk.symm)]
              exact hc
            · intro u v hm
              simp at hm
              rcases hm with ⟨rfl, rfl⟩
              exact hkey
          · rw [if_neg hroll]
            refine ⟨?_, ?_⟩
            · simp only
              rw [if_neg (fun hk => hkey hk.symm)]
              exact hc
            · intro u v hm
              simp at hm
              rcases hm with ⟨rfl, rfl⟩
              exact hkey
        · rw [if_neg hsl]
          refine ⟨?_, ?_⟩
          · simp only
            rw [if_neg (fun hk => hkey hk.symm)]
            exact hc
          · intro u v hm
            simp at hm
            rcases hm with ⟨rfl, rfl⟩
            exact hkey
      · rw [if_neg hdist]
        exact ⟨hc, by intro u v hm; simp at hm⟩

theorem scanPairsAux_blocked (inp : TickIn) (key : ℕ × ℕ) (c : ℝ) (ht : inp.t < c) :
    ∀ (pairs : List (ℕ × ℕ)) (st : MState) (evs : List MEvent) (i : ℕ),
      st.cooldown key = some c →
      (scanPairsAux inp pairs (st, evs, i)).1.cooldown key = some c ∧
      (∀ u v, MEvent.greet u v ∈ (scanPairsAux inp pairs (st, evs, i)).2.1 →
        getPairKey u v = key → MEvent.greet u v ∈ evs) := by
  intro pairs
  induction pairs with
  | nil =>
    intro st evs i hc
    exact ⟨hc, fun u v hm _ => hm⟩
  | cons p rest ih =>
    intro st evs i hc
    unfold scanPairsAux
    dsimp only
    have hb := greetPair_blocked st inp i p.1 p.2 key c hc ht
    have hrest := ih (greetPair st inp i p.1 p.2).1
      (evs ++ (greetPair st inp i p.1 p.2).2.1) (greetPair st inp i p.1 p.2).2.2 hb.1
    refine ⟨hrest.1, ?_⟩
    intro u v hm hk
    rcases List.mem_append.mp (hrest.2 u v hm hk) with h3 | h3
    · exact h3
    · exact absurd hk (hb.2 u v h3)

theorem managerTick_blocked (st : MState) (inp : TickIn) (key : ℕ × ℕ) (c : ℝ)
    (hc : st.cooldown key = some c) (ht : inp.t < c) :
    (managerTick st inp).1.cooldown key = some c ∧
    (∀ u v, MEvent.greet u v ∈ (managerTick st inp).2 → getPairKey u v ≠ key) := by
  have hgate : ∀ (st2 : MState) (i : ℕ), st2.cooldown key = some c →
      ((if st2.frame % socialCheckEveryFrames ≠ 0 then (st2, ([] : List MEvent))
        else if inp.pets.length < 2 then (st2, [])
        else scanPairs st2 inp i).1.cooldown key = some c ∧
       (∀ u v, MEvent.greet u v ∈
          (if st2.frame % socialCheckEveryFrames ≠ 0 then (st2, ([] : List MEvent))
           else if inp.pets.length < 2 then (st2, [])
           else scanPairs st2 inp i).2 →
         getPairKey u v ≠ key)) := by
    intro st2 i hc2
    split
    · exact ⟨hc2, fun u v hm => absurd hm (by simp)⟩
    split
    · exact ⟨hc2, fun u v hm => absurd hm (by simp)⟩
    · unfold scanPairs
      have h := scanPairsAux_blocked inp key c ht (allPairs inp.pets) st2 [] i hc2
      exact ⟨h.1, fun u v hm hk => absurd (h.2 u v hm hk) (by simp)⟩
  unfold managerTick
  dsimp only
  by_cases hact : st.chase.active = true
  · rw [if_pos hact]
    exact hgate _ _ hc
  · rw [if_neg hact]
    exact hgate _ _ hc

theorem runTicks_blocked (key : ℕ × ℕ) (c : ℝ) :
    ∀ (inps : List TickIn) (st : MState),
      st.cooldown key = some c → (∀ inp ∈ inps, inp.t < c) →
      (runTicks st inps).1.cooldown key = some c ∧
      (∀ u v, MEvent.greet u v ∈ (runTicks st inps).2 → getPairKey u v ≠ key) := by
  intro inps
  induction inps with
  | nil =>
    intro st hc _
    exact ⟨hc, by intro u v hm; simp [runTicks] at hm⟩
  | cons inp rest ih =>
    intro st hc hts
    unfold runTicks
    dsimp only
    have h1 := managerTick_blocked st inp key c hc (hts inp (by simp))
    have h2 := ih (managerTick st inp).1 h1.1 (fun j hj => hts j (by simp [hj]))
    refine ⟨h2.1, ?_⟩
    intro u v hm
    rcases List.mem_append.mp hm with h3 | h3
    · exact h1.2 u v h3
    · exact h2.2 u v h3

/-- C5: when a pair greets at time `t0` the coordinator records the pair
cooldown as `t0 + 10`; starting from a state whose cooldown entry for the
unordered pair is `t0 + 10`, no coordinator tick at any time
`t0 ≤ t < t0 + 10` emits a new greet event for that pair; and a pair with
no cooldown entry reads as cooldown 0 (no cooldown). -/
theorem cooldown_correctness :
    (∀ (st : MState) (inp : TickIn) (i a b : ℕ),
        MEvent.greet a b ∈ (greetPair st inp i a b).2.1 →
        (greetPair st inp i a b).1.cooldown (getPairKey a b) =
          some (inp.t + socialCooldownS)) ∧
    (∀ (a b : ℕ) (t0 : ℝ) (st : MState) (inps : List TickIn),
        st.cooldown (getPairKey a b) = some (t0 + 10) →
        (∀ inp ∈ inps, t0 ≤ inp.t ∧ inp.t < t0 + 10) →
        ∀ u v, MEvent.greet u v ∈ (runTicks st inps).2 →
          getPairKey u v ≠ getPairKey a b) ∧
    (∀ (st : MState) (key : ℕ × ℕ), st.cooldown key = none →
        cooldownRead st key = 0) := by
  refine ⟨greetPair_records_cooldown, ?_, ?_⟩
  · intro a b t0 st inps hc hts u v hm
    exact (runTicks_blocked (getPairKey a b) (t0 + 10) inps st hc
      (fun inp hi => (hts inp hi).2)).2 u v hm
  · intro st key h
    unfold cooldownRead
    rw [h]
    rfl

/-- Witness for C5: a concrete greet at `t0 = 1` records cooldown `11`;
with that entry in place a scan tick at `t = 5` emits no greet for the
pair; and a key never written reads as cooldown 0. -/
theorem cooldown_correctness_witness :
    (greetPair ⟨29, fun _ => none, createChaseMode, fun _ => createSocialState, none⟩
        ⟨1, [0, 1],
          fun id => if id = 0 then some ⟨0, 0, Mode.wandering⟩
                    else if id = 1 then some ⟨3 / 2, 0, Mode.wandering⟩ else none,
          [], fun _ => 1 / 2⟩ 1 0 1).1.cooldown (getPairKey 0 1) =
      some (1 + socialCooldownS) ∧
    MEvent.greet 0 1 ∉
      (runTicks
        ⟨0, fun k => if k = (0, 1) then some (1 + 10) else none, createChaseMode,
          fun _ => createSocialState, none⟩
        [⟨5, [0, 1],
          fun id => if id = 0 then some ⟨0, 0, Mode.wandering⟩
                    else if id = 1 then some ⟨3 / 2, 0, Mode.wandering⟩ else none,
          [], fun _ => 1 / 2⟩]).2 ∧
    cooldownRead ⟨0, fun _ => none, createChaseMode, fun _ => createSocialState, none⟩
      (5, 7) = 0 := by
  refine ⟨?_, ?_, ?_⟩
  · have hg := greetPair_greets
      ⟨29, fun _ => none, createChaseMode, fun _ => createSocialState, none⟩
      ⟨1, [0, 1],
        fun id => if id = 0 then some ⟨0, 0, Mode.wandering⟩
                  else if id = 1 then some ⟨3 / 2, 0, Mode.wandering⟩ else none,
        [], fun _ => 1 / 2⟩ 1 0 1 ⟨0, 0, Mode.wandering⟩ ⟨3 / 2, 0, Mode.wandering⟩
      (by norm_num) (by norm_num) (by norm_num)
      (by intro hc; simp [createChaseMode] at hc)
      (by norm_num [cooldownRead])
      (by norm_num [socialDistance])
    exact cooldown_correctness.1 _ _ 1 0 1 hg.2.2.2
  · intro hm
    refine cooldown_correctness.2.1 0 1 1
      ⟨0, fun k => if k = (0, 1) then some (1 + 10) else none, createChaseMode,
        fun _ => createSocialState, none⟩
      _ (by simp [getPairKey]) ?_ 0 1 hm rfl
    intro inp hi
    rw [List.mem_singleton] at hi
    rw [hi]
    norm_num
  · exact cooldown_correctness.2.2 _ (5, 7) rfl

/-- A coordinator tick with an inactive episode off the scan interval:
only the frame counter and (possibly) the chase episode change. -/
theorem managerTick_chase_start (st : MState) (inp : TickIn)
    (hchase : st.chase.active = false)
    (hfr : ¬ (st.frame + 1) % socialCheckEveryFrames = 0) :
    managerTick st inp =
      ({ st with
          frame := st.frame + 1
          chase := (gardenChaseStart st.chase inp.pets inp.t inp.rs).1 }, []) := by
  unfold managerTick
  dsimp only
  rw [if_neg (show ¬ st.chase.active = true by simp [hchase])]
  dsimp only
  rw [if_pos hfr]

/-- A quiet tick: inactive episode, failing chase roll, off the scan
interval — only the frame counter advances. -/
theorem managerTick_quiet (st : MState) (inp : TickIn)
    (hchase : st.chase.active = false)
    (hroll : ¬ inp.rs 0 < chaseChancePerS * (1 / 60))
    (hfr : ¬ (st.frame + 1) % socialCheckEveryFrames = 0) :
    managerTick st inp = ({ st with frame := st.frame + 1 }, []) := by
  rw [managerTick_chase_start st inp hchase hfr]
  unfold gardenChaseStart
  rw [if_neg (fun hc => hroll hc.2)]

/-- Iterated quiet ticks advance only the frame counter. -/
theorem runTicks_quiet (inp : TickIn)
    (hroll : ¬ inp.rs 0 < chaseChancePerS * (1 / 60)) :
    ∀ (n : ℕ) (st : MState), st.chase.active = false →
      (∀ k, k < n → ¬ (st.frame + k + 1) % socialCheckEveryFrames = 0) →
      runTicks st (List.replicate n inp) = ({ st with frame := st.frame + n }, []) := by
  intro n
  induction n with
  | zero =>
    intro st hchase _
    rfl
  | succ n ih =>
    intro st hchase hfrs
    rw [List.replicate_succ]
    unfold runTicks
    dsimp only
    rw [managerTick_quiet st inp hchase hroll (hfrs 0 (Nat.succ_pos n))]
    rw [ih { st with frame := st.frame + 1 } hchase
      (fun k hk => by
        have h2 := hfrs (k + 1) (by omega)
        intro hmod
        apply h2
        simp only [socialCheckEveryFrames] at hmod ⊢
        omega)]
    have harith : st.frame + 1 + n = st.frame + (n + 1) := by omega
    rw [harith]
    rfl

/-- The greet-scan pair step never touches the chase episode or the frame
counter. -/
theorem greetPair_preserves (st : MState) (inp : TickIn) (i a b : ℕ) :
    (greetPair st inp i a b).1.chase = st.chase ∧
    (greetPair st inp i a b).1.frame = st.frame := by
  unfold greetPair
  cases inp.posMap a with
  | none => exact ⟨rfl, rfl⟩
  | some pa =>
    cases inp.posMap b with
    | none => exact ⟨rfl, rfl⟩
    | some pb =>
      dsimp only
      split
      · exact ⟨rfl, rfl⟩
      split
      · exact ⟨rfl, rfl⟩
      split
      · split
        · split
          · exact ⟨rfl, rfl⟩
          · exact ⟨rfl, rfl⟩
        · exact ⟨rfl, rfl⟩
      · exact ⟨rfl, rfl⟩

/-- Pose snapshot for the chase/social overlap trace: pets 0 and 1 stand
1.5 units apart, both wandering. -/
def c1PosMap : ℕ → Option Pose := fun id =>
  if id = 0 then some ⟨0, 0, Mode.wandering⟩
  else if id = 1 then some ⟨3 / 2, 0, Mode.wandering⟩ else none

/-- Random stream of the quiet and greet ticks: every draw 1/2 (chase roll
fails, greet duration 1.275 s). -/
def c1Rs : ℕ → ℝ := fun _ => 1 / 2

/-- Random stream of the chase tick: roll 0 (chase fires), chaser draw 0
(pet 0), runner draw 1/2 (pet 1). -/
def c1RsChase : ℕ → ℝ := fun n => if n ≤ 1 then 0 else 1 / 2

/-- The coordinator state after 31 ticks from the initial state: 29 quiet
ticks at `t = 1`, the greet tick on frame 30 at `t = 1`, and the
chase-start tick on frame 31 at `t = 1.1`. -/
def c1FinalState : MState :=
  (managerTick
    (managerTick (runTicks mInit (List.replicate 29 ⟨1, [0, 1], c1PosMap, [], c1Rs⟩)).1
      ⟨1, [0, 1], c1PosMap, [], c1Rs⟩).1
    ⟨11 / 10, [0, 1], c1PosMap, [], c1RsChase⟩).1

/-- C1 counterexample: a reachable coordinator state in which pet 0 is the
active chase's chaser while its social state is still active (its `until`,
2.275, lies beyond the tick time 1.1): chase arbitration draws its pair
without checking social state.  The trace: pets 0 and 1 greet on frame 30
(both socials active until 2.275), and on frame 31 the chase roll
succeeds, drawing 0 as chaser and 1 as runner. -/
theorem chase_social_overlap_counterexample :
    c1FinalState.chase.active = true ∧
    c1FinalState.chase.chaserId = some 0 ∧
    (c1FinalState.socials 0).active = true ∧
    (11 : ℝ) / 10 < (c1FinalState.socials 0).untilT := by
  have hroll : ¬ (⟨1, [0, 1], c1PosMap, [], c1Rs⟩ : TickIn).rs 0 <
      chaseChancePerS * (1 / 60) := by
    norm_num [c1Rs, chaseChancePerS]
  have hfrs : ∀ k, k < 29 → ¬ (mInit.frame + k + 1) % socialCheckEveryFrames = 0 := by
    intro k hk
    show ¬ (0 + k + 1) % 30 = 0
    omega
  have h29 := runTicks_quiet (⟨1, [0, 1], c1PosMap, [], c1Rs⟩ : TickIn) hroll 29 mInit
    rfl hfrs
  unfold c1FinalState
  rw [h29]
  dsimp only
  set stA : MState := { mInit with frame := mInit.frame + 29 } with hstA
  have h30 := managerTick_scan_two stA 1 0 1 c1PosMap [] c1Rs rfl hroll
    (by show (0 + 29 + 1) % 30 = 0; norm_num)
  rw [h30]
  dsimp only
  set stB : MState := { stA with frame := stA.frame + 1 } with hstB
  have hp := greetPair_preserves stB ⟨1, [0, 1], c1PosMap, [], c1Rs⟩ 1 0 1
  have hg := greetPair_greets stB ⟨1, [0, 1], c1PosMap, [], c1Rs⟩ 1 0 1
    ⟨0, 0, Mode.wandering⟩ ⟨3 / 2, 0, Mode.wandering⟩
    (by norm_num)
    (by norm_num [c1PosMap])
    (by norm_num [c1PosMap])
    (by intro hc; exact absurd hc.1 (by simp [hstB, hstA, mInit, createChaseMode]))
    (by norm_num [cooldownRead, hstB, hstA, mInit])
    (by norm_num [socialDistance])
  have h31 := managerTick_chase_start
    (greetPair stB ⟨1, [0, 1], c1PosMap, [], c1Rs⟩ 1 0 1).1
    ⟨11 / 10, [0, 1], c1PosMap, [], c1RsChase⟩
    (by rw [hp.1]; rfl)
    (by rw [hp.2]; decide)
  rw [h31]
  dsimp only
  rw [hp.1]
  have hchaser : (gardenChaseStart stB.chase [0, 1] (11 / 10) c1RsChase).1.active =
      true ∧
      (gardenChaseStart stB.chase [0, 1] (11 / 10) c1RsChase).1.chaserId = some 0 := by
    unfold gardenChaseStart
    rw [if_pos (by constructor
                   · norm_num
                   · norm_num [c1RsChase, chaseChancePerS])]
    have ha : pickId [0, 1] (c1RsChase 1) = 0 := by
      norm_num [pickId, pickIdx, c1RsChase]
    have hb : pickId [0, 1] (c1RsChase 2) = 1 := by
      norm_num [pickId, pickIdx, c1RsChase]
    rw [ha, hb]
    simp [retryPick]
  refine ⟨hchaser.1, hchaser.2, ?_, ?_⟩
  · rw [hg.1]
    rfl
  · rw [hg.1]
    show (11 : ℝ) / 10 < (1 : ℝ) + (1.05 + c1Rs 1 * 0.45)
    norm_num [c1Rs]

end

end GardenPets
